import Mathlib

/-!
Shallow embedding of the gee4tts synthesis pipeline:

* `Volcano.parse_response`   — `VolcanoTTSClient._parse_response`
  (src/backend/app/services/volcano_client.py, lines 296-356);
* `Volcano.stream_loop`      — the receive loop of
  `VolcanoTTSClient._synthesize_stream` (lines 270-294);
* `Volcano.synthesize_to_file` — `VolcanoTTSClient.synthesize_to_file`
  (lines 93-180);
* `Volcano.supports_emotion` and the wire-request builder (lines 123-150);
* `CacheService.get` / `CacheService.set` / cleanup
  (src/backend/app/services/cache_service.py);
* `CacheService.generate_cache_key` (lines 158-167);
* `TTSService.synthesize_text` (src/backend/app/services/tts_service.py,
  lines 28-134).

Bytes are modelled as `List Nat` (each element one byte value); timestamps
as `ℚ` (datetime has sub-second resolution); external collaborators that
are not part of the repository (the gzip codec, the md5 hex digest, the
audio-duration probe, the network delivering websocket events) are opaque
parameters of the embedded functions.  Python exceptions are modelled as
tagged `Except` errors carrying the structured content of the raised
exception message.
-/

namespace Gee4TTS

/-- Big-endian unsigned integer from a byte list, exactly
`int.from_bytes(bs, "big", signed=False)`. -/
def natFromBytesBE (bs : List Nat) : Nat :=
  bs.foldl (fun a b => a * 256 + b) 0

/-- Big-endian signed integer from a byte list, exactly
`int.from_bytes(bs, "big", signed=True)`: the unsigned value, reduced
modulo `2^(8·n)` into the signed range. -/
def intFromBytesBE (bs : List Nat) : Int :=
  let v := natFromBytesBE bs
  if bs.length = 0 then 0
  else if v ≥ 2 ^ (8 * bs.length - 1) then (v : Int) - 2 ^ (8 * bs.length)
  else (v : Int)

namespace Volcano

/-- Errors raised inside the client / orchestrator, as tagged variants of
the Python exceptions:
`providerError code msg` is `Exception(f"TTS API错误 {code}: {error_msg}")`
raised by `_parse_response` for a `0xf` frame,
`synthesisFailed e` is the re-wrapping `raise Exception(f"...失败: {e}")`
performed by `synthesize_to_file` / `synthesize_text`. -/
inductive TTSError where
  | providerError (code : Nat) (message : List Nat)
  | synthesisFailed (cause : TTSError)
  deriving Repr, DecidableEq

/-- Embedding of `VolcanoTTSClient._parse_response` (volcano_client.py lines 296-356).
`gz` is the opaque `gzip.decompress`.  Returns `(done, audio_chunk)` on a
normal return, or the raised error.

* fewer than 4 bytes → returns `(False, None)` (line 299-300);
* header fields by bit-shifting the first bytes, header length =
  header-size nibble × 4, payload sliced from that offset;
* message type `0xb`: flags `0` → `(False, None)`; otherwise a signed
  4-byte sequence number is read and `(seq < 0, audio)` returned with
  `audio = payload[8:]`;
* message type `0xf`: raises the provider error with the 4-byte code and
  the message bytes `payload[8:]`, gzip-decompressed iff the compression
  nibble is `1`;
* message type `0xc`: logged only, falls through to `(False, None)`. -/
def parse_response (gz : List Nat → List Nat) (response : List Nat) :
    Except TTSError (Bool × Option (List Nat)) :=
  if response.length < 4 then .ok (false, none)
  else
    let header_size := (response.getD 0 0) % 16
    let message_type := (response.getD 1 0) / 16
    let message_type_specific_flags := (response.getD 1 0) % 16
    let message_compression := (response.getD 2 0) % 16
    let header_length := header_size * 4
    let payload := response.drop header_length
    if message_type = 0xb then
      if message_type_specific_flags = 0 then .ok (false, none)
      else
        let sequence_number := intFromBytesBE (payload.take 4)
        let audio_data := payload.drop 8
        .ok (decide (sequence_number < 0), some audio_data)
    else if message_type = 0xf then
      let code := natFromBytesBE (payload.take 4)
      let error_msg := payload.drop 8
      let error_msg := if message_compression = 1 then gz error_msg else error_msg
      .error (.providerError code error_msg)
    else .ok (false, none)

/-- One event observed by the receive loop of `_synthesize_stream`
(volcano_client.py lines 270-290): a websocket message, a receive timeout
(`asyncio.TimeoutError`), or a connection closure
(`websockets.exceptions.ConnectionClosed`). -/
inductive RecvEvent where
  | msg (bytes : List Nat)
  | timeout
  | closed
  deriving Repr, DecidableEq

/-- The receive loop of `VolcanoTTSClient._synthesize_stream`
(volcano_client.py lines 270-290), as a function from the sequence of
received events to the list of yielded audio chunks: a message is parsed;
a chunk (if any) is yielded; the loop stops when `done` is true.  A
timeout or a connection closure is caught, logged, and `break`s out of the
loop — no exception is raised for it.  An error raised by
`_parse_response` propagates. -/
def stream_loop (gz : List Nat → List Nat) :
    List RecvEvent → Except TTSError (List (List Nat))
  | [] => .ok []
  | .timeout :: _ => .ok []
  | .closed :: _ => .ok []
  | .msg b :: rest =>
    match parse_response gz b with
    | .error e => .error e
    | .ok (done, audio_chunk) =>
      match audio_chunk with
      | some chunk =>
        if done then .ok [chunk]
        else (stream_loop gz rest).map (chunk :: ·)
      | none =>
        if done then .ok []
        else stream_loop gz rest

/-- The result dict built by `VolcanoTTSClient.synthesize_to_file`
(volcano_client.py lines 166-173). -/
structure VolcanoResult where
  request_id : String
  file_path : String
  file_size : Nat
  synthesis_time : ℚ
  created_at : ℚ
  status : String
  deriving Repr, DecidableEq

/-- Embedding of `VolcanoTTSClient.synthesize_to_file` (volcano_client.py lines
93-180), from the point where the stream is consumed: all yielded chunks
are concatenated, the concatenation is written to `output_path`, and a
success result is returned.  Any exception from the stream is re-raised
wrapped (`raise Exception(f"语音合成失败: ...")`) and nothing is written.

`request_id` is the `uuid.uuid4()` drawn at line 120, `start`/`stop` the
two `datetime.utcnow()` readings, `events` the network events consumed by
the receive loop.  The first component lists the file writes performed
(path, bytes). -/
def synthesize_to_file (gz : List Nat → List Nat) (request_id : String)
    (output_path : String) (start stop : ℚ) (events : List RecvEvent) :
    List (String × List Nat) × Except TTSError VolcanoResult :=
  match stream_loop gz events with
  | .error e => ([], .error (.synthesisFailed e))
  | .ok chunks =>
    let audio_data := chunks.flatten
    ([(output_path, audio_data)],
     .ok { request_id := request_id
           file_path := output_path
           file_size := audio_data.length
           synthesis_time := stop - start
           created_at := start
           status := "success" })

/-- Embedding of `VolcanoTTSClient._get_default_emotion_voices` (volcano_client.py lines
83-91): the built-in fallback list of emotion-capable voices. -/
def default_emotion_voices : List String :=
  ["zh_male_beijingxiaoye_emo_v2_mars_bigtts",
   "zh_female_roumeinvyou_emo_v2_mars_bigtts",
   "zh_male_yangguangqingnian_emo_v2_mars_bigtts",
   "zh_female_meilinvyou_emo_v2_mars_bigtts",
   "zh_female_shuangkuaisisi_emo_v2_mars_bigtts"]

/-- Embedding of `VolcanoTTSClient.supports_emotion` (volcano_client.py lines 378-380):
membership of the voice in the loaded emotion-voice list.  The list itself
is loaded from `voice_presets_complete.json` at construction (falling back
to `default_emotion_voices`), so it is a parameter here. -/
def supports_emotion (emotion_voices : List String) (voice_type : String) : Bool :=
  emotion_voices.contains voice_type

/-- Python truthiness of the optional emotion string: `if emotion:` is
false for `None` and for the empty string. -/
def emotionTruthy : Option String → Bool
  | none => false
  | some s => !(s == "")

/-- The fields of the wire-request JSON built by
`VolcanoTTSClient.synthesize_to_file` (volcano_client.py lines 123-150)
that the core populates (app credentials, audio parameters, request
section).  `emotion = none` means the key is absent from the JSON. -/
structure RequestJson where
  appid : String
  token : String
  cluster : String
  uid : String
  voice_type : String
  encoding : String
  speed_ratio : ℚ
  volume_ratio : ℚ
  pitch_ratio : ℚ
  reqid : String
  text : String
  emotion : Option String
  deriving Repr, DecidableEq

/-- The wire-request construction of `VolcanoTTSClient.synthesize_to_file`
(volcano_client.py lines 122-150): the JSON dict is built without an
emotion key, then `request_json["request"]["emotion"] = emotion` is
executed only when `emotion and self.supports_emotion(voice_type)`. -/
def build_request_json (emotion_voices : List String)
    (app_id access_token cluster uid : String)
    (text voice_type : String) (speed_ratio volume_ratio pitch_ratio : ℚ)
    (encoding : String) (emotion : Option String) (request_id : String) :
    RequestJson :=
  { appid := app_id
    token := access_token
    cluster := cluster
    uid := uid
    voice_type := voice_type
    encoding := encoding
    speed_ratio := speed_ratio
    volume_ratio := volume_ratio
    pitch_ratio := pitch_ratio
    reqid := request_id
    text := text
    emotion :=
      if emotionTruthy emotion && supports_emotion emotion_voices voice_type then
        emotion
      else none }

end Volcano

namespace CacheService

/-- The `cache_stats` counters of `CacheService` (cache_service.py lines
27-32). -/
structure CacheStats where
  hits : Nat
  misses : Nat
  sets : Nat
  deletes : Nat
  deriving Repr, DecidableEq

/-- One entry of the in-memory cache dict (cache_service.py lines
101-104): the stored data and its expiry timestamp. -/
structure MemItem (α : Type) where
  data : α
  expires_at : ℚ
  deriving Repr, DecidableEq

/-- The Redis collaborator (`self.redis_client`), an external service:
each call either returns or raises.  `rget` covers `redis.get` together
with the `json.loads` decoding; `rsetex`/`rset` cover `redis.setex` /
`redis.set` with the `json.dumps` encoding. -/
structure RedisClient (α : Type) where
  rget : String → Except String (Option α)
  rsetex : String → Int → α → Except String Unit
  rset : String → α → Except String Unit

/-- The mutable state of a `CacheService` instance: the optional Redis
client, the in-memory cache (a Python dict: an association list with
unique keys, insertion-ordered), and the statistics counters. -/
structure CacheState (α : Type) where
  redis : Option (RedisClient α)
  memory : List (String × MemItem α)
  stats : CacheStats

/-- Model of `self.memory_cache.get(key)` on a Python dict: the value at the key,
if present. -/
def lookupKey {β : Type} : List (String × β) → String → Option β
  | [], _ => none
  | (k', v') :: rest, k => if k' = k then some v' else lookupKey rest k

/-- Model of `self.memory_cache[key] = item` on a Python dict: replace in place if
the key is present, append otherwise. -/
def updateAssoc {β : Type} : List (String × β) → String → β → List (String × β)
  | [], k, v => [(k, v)]
  | (k', v') :: rest, k, v =>
    if k' = k then (k, v) :: rest else (k', v') :: updateAssoc rest k v

/-- Model of `del self.memory_cache[key]`: remove the (unique) binding of `k`. -/
def eraseKey {β : Type} : List (String × β) → String → List (String × β)
  | [], _ => []
  | (k', v') :: rest, k =>
    if k' = k then rest else (k', v') :: eraseKey rest k

/-- Embedding of `CacheService._cleanup_expired_memory_cache` (cache_service.py lines
198-210): collects every key whose item has `expires_at <= now` and
deletes each of them, i.e. keeps exactly the entries with
`now < expires_at`. -/
def cleanup_expired {α : Type} (m : List (String × MemItem α)) (now : ℚ) :
    List (String × MemItem α) :=
  m.filter (fun kv => decide (now < kv.2.expires_at))

/-- Embedding of `CacheService.get` (cache_service.py lines 54-79).  `now` is the
`datetime.utcnow()` reading.  With a Redis client, a raised exception is
caught and `None` returned (lines 76-79).  With the memory backend, an
entry is served only while `expires_at > now`; an expired entry is
deleted as a side effect of the read (lines 64-71). -/
def get {α : Type} (st : CacheState α) (key : String) (now : ℚ) :
    Option α × CacheState α :=
  match st.redis with
  | some rc =>
    match rc.rget key with
    | .ok (some v) =>
      (some v, { st with stats := { st.stats with hits := st.stats.hits + 1 } })
    | .ok none =>
      (none, { st with stats := { st.stats with misses := st.stats.misses + 1 } })
    | .error _ =>
      (none, { st with stats := { st.stats with misses := st.stats.misses + 1 } })
  | none =>
    match lookupKey st.memory key with
    | some item =>
      if now < item.expires_at then
        (some item.data,
         { st with stats := { st.stats with hits := st.stats.hits + 1 } })
      else
        (none,
         { st with memory := eraseKey st.memory key
                   stats := { st.stats with misses := st.stats.misses + 1 } })
    | none =>
      (none, { st with stats := { st.stats with misses := st.stats.misses + 1 } })

/-- Embedding of `CacheService.set` (cache_service.py lines 81-114).  `defaultExpire`
is `settings.CACHE_EXPIRE_SECONDS`; `expire or default` makes `None` and
`0` fall back to the default.  Memory backend: store the entry with
expiry `now + effective`, then run the cleanup sweep, count the set and
return `True`.  Redis backend: a raised exception is caught and `False`
returned (lines 112-114); `if expire:` routes `None`/`0` to plain `set`. -/
def set {α : Type} (defaultExpire : Int) (st : CacheState α) (key : String)
    (value : α) (expire : Option Int) (now : ℚ) : Bool × CacheState α :=
  match st.redis with
  | some rc =>
    let call : Except String Unit :=
      match expire with
      | some e => if e ≠ 0 then rc.rsetex key e value else rc.rset key value
      | none => rc.rset key value
    match call with
    | .ok _ =>
      (true, { st with stats := { st.stats with sets := st.stats.sets + 1 } })
    | .error _ => (false, st)
  | none =>
    let eff : Int :=
      match expire with
      | none => defaultExpire
      | some e => if e = 0 then defaultExpire else e
    let expires_at : ℚ := now + (eff : ℚ)
    let mem1 := updateAssoc st.memory key ⟨value, expires_at⟩
    let mem2 := cleanup_expired mem1 now
    (true,
     { st with memory := mem2
               stats := { st.stats with sets := st.stats.sets + 1 } })

/-- Lexicographic comparison of `(key, value)` string pairs: exactly how
Python's `sorted(kwargs.items())` orders the 2-tuples. -/
def pairLe (a b : String × String) : Prop :=
  a.1 < b.1 ∨ (a.1 = b.1 ∧ a.2 ≤ b.2)

instance : DecidableRel pairLe := fun a b => by
  unfold pairLe; infer_instance

/-- Embedding of `CacheService.generate_cache_key` (cache_service.py lines 158-167):
the sorted `key:value` parts are joined with "|" after the prefix, then
hashed; the key is the prefix, a colon, and the hex digest.  `md5hex` is
the opaque `hashlib.md5(...).hexdigest()`.  Python's `sorted` is a stable
sort by the lexicographic tuple order, modelled by `List.insertionSort`
over `pairLe`. -/
def generate_cache_key (md5hex : String → String) (pfx : String)
    (kwargs : List (String × String)) : String :=
  let key_parts := pfx :: (List.insertionSort pairLe kwargs).map
    (fun kv => kv.1 ++ ":" ++ kv.2)
  let key_string := String.intercalate "|" key_parts
  pfx ++ ":" ++ md5hex key_string

end CacheService

namespace TTSService

open Volcano

/-- The validated synthesis request (`app.schemas.tts.TTSRequest`).
Modelled from the spec: the schemas module is not part of the supplied
source; §3 gives text, voice identifier, speed/volume/pitch ratios,
output encoding, optional emotion tag, sample rate and bitrate.  The
ratios are carried as rationals, the format as its string value. -/
structure TTSRequest where
  text : String
  voice_id : String
  speed : ℚ
  volume : ℚ
  pitch : ℚ
  format : String
  emotion : Option String
  sample_rate : Nat
  bitrate : Nat
  deriving Repr, DecidableEq

/-- The response constructed by `TTSService.synthesize_text`
(tts_service.py lines 102-114). -/
structure TTSResponse where
  request_id : String
  text : String
  voice_id : String
  file_path : String
  file_url : String
  file_size : Nat
  duration : Option ℚ
  format : String
  synthesis_time : ℚ
  created_at : ℚ
  status : String
  deriving Repr, DecidableEq

/-- What `synthesize_text` stores in the cache (tts_service.py lines
116-118): `response.dict()` with the `file_path` key popped — every other
field of the response, `file_url` included, is kept. -/
structure CacheData where
  request_id : String
  text : String
  voice_id : String
  file_url : String
  file_size : Nat
  duration : Option ℚ
  format : String
  synthesis_time : ℚ
  created_at : ℚ
  status : String
  deriving Repr, DecidableEq

/-- Embedding of `cache_data = response.dict(); cache_data.pop("file_path", None)`
(tts_service.py lines 117-118). -/
def toCacheData (r : TTSResponse) : CacheData :=
  { request_id := r.request_id
    text := r.text
    voice_id := r.voice_id
    file_url := r.file_url
    file_size := r.file_size
    duration := r.duration
    format := r.format
    synthesis_time := r.synthesis_time
    created_at := r.created_at
    status := r.status }

/-- Embedding of `request.emotion or "neutral"` (tts_service.py line 53): Python `or`
falls through on `None` and on the empty string. -/
def emotionOrNeutral : Option String → String
  | none => "neutral"
  | some s => if s = "" then "neutral" else s

/-- The cache key computed by `TTSService.synthesize_text`
(tts_service.py lines 45-54): `generate_cache_key` over prefix "tts" and
the seven keyword arguments, the ratio values rendered as strings by the
f-string interpolation. -/
def ttsCacheKey (md5hex : String → String) (req : TTSRequest) : String :=
  CacheService.generate_cache_key md5hex "tts"
    [("text", req.text),
     ("voice_id", req.voice_id),
     ("speed", toString req.speed),
     ("volume", toString req.volume),
     ("pitch", toString req.pitch),
     ("format", req.format),
     ("emotion", emotionOrNeutral req.emotion)]

/-- The cache-hit response (tts_service.py lines 58-68): the cached dict
with a fresh `request_id`, a fresh `created_at`, and a `file_path`
rebuilt under `settings.AUDIO_FILES_PATH` from the fresh request id and
the cached format, then `TTSResponse(**cached_result)`. -/
def hitResponse (entry : CacheData) (u : String) (now : ℚ)
    (audioPath : String) : TTSResponse :=
  { request_id := u
    text := entry.text
    voice_id := entry.voice_id
    file_path := audioPath ++ "/" ++ ("tts_" ++ u ++ "." ++ entry.format)
    file_url := entry.file_url
    file_size := entry.file_size
    duration := entry.duration
    format := entry.format
    synthesis_time := entry.synthesis_time
    created_at := now
    status := entry.status }

/-- Embedding of `TTSService.synthesize_text` (tts_service.py lines 28-134).

Opaque collaborators and readings, in the order the source consumes them:
`gz` the gzip codec; `events` the websocket events the provider delivers;
`dur` the `get_audio_duration` probe (may raise: caught, duration absent);
`u` the service's `uuid.uuid4()` (line 60 on a hit, line 71 on a miss);
`uuid2` the client's own request id (volcano_client.py line 120);
`start`/`stop` the client's wall-clock readings; `tGet`, `tResp`, `tSet`
the successive `datetime.utcnow()` readings at the cache read, the
response construction, and the cache write; `audioPath`
`settings.AUDIO_FILES_PATH`; `md5hex` the md5 digest; `cacheExpire`
`settings.CACHE_EXPIRE_SECONDS`.

Returns the file writes performed, the response or wrapped error, and the
final cache state.  `user_id` only feeds `_save_history`, which logs. -/
def synthesize_text (gz : List Nat → List Nat) (events : List RecvEvent)
    (dur : String → Except String ℚ) (u uuid2 : String)
    (start stop tGet tResp tSet : ℚ) (audioPath : String)
    (md5hex : String → String) (cacheExpire : Int)
    (st : CacheService.CacheState CacheData) (req : TTSRequest)
    (user_id : Option String) :
    List (String × List Nat) × Except TTSError TTSResponse ×
      CacheService.CacheState CacheData :=
  let cache_key := ttsCacheKey md5hex req
  let res := CacheService.get st cache_key tGet
  let st1 := res.2
  match res.1 with
  | some entry => ([], .ok (hitResponse entry u tResp audioPath), st1)
  | none =>
    let format_str := req.format
    let filename := "tts_" ++ u ++ "." ++ format_str
    let file_path := audioPath ++ "/" ++ filename
    let vres := Volcano.synthesize_to_file gz uuid2 file_path start stop events
    match vres.2 with
    | .error e => (vres.1, .error (.synthesisFailed e), st1)
    | .ok result =>
      let duration : Option ℚ :=
        match dur file_path with
        | .ok d => some d
        | .error _ => none
      let file_url := "/audio/" ++ filename
      let response : TTSResponse :=
        { request_id := u
          text := req.text
          voice_id := req.voice_id
          file_path := file_path
          file_url := file_url
          file_size := result.file_size
          duration := duration
          format := req.format
          synthesis_time := result.synthesis_time
          created_at := tResp
          status := "success" }
      let cache_data := toCacheData response
      let st2 := (CacheService.set cacheExpire st1 cache_key cache_data
        (some cacheExpire) tSet).2
      (vres.1, .ok response, st2)

end TTSService

/-! ### Helper lemmas -/

namespace Volcano

/-- Frames that parse to a non-terminal chunk each contribute their chunk
and leave the loop running: consuming them prepends their chunks to
whatever the rest of the event list produces. -/
theorem stream_loop_append_nonterminal (gz : List Nat → List Nat)
    {bs : List (List Nat)} {cs : List (List Nat)}
    (h : List.Forall₂
      (fun b c => parse_response gz b = .ok (false, some c)) bs cs)
    (tail : List RecvEvent) :
    stream_loop gz (bs.map .msg ++ tail) =
      (stream_loop gz tail).map (cs ++ ·) := by
  induction h with
  | nil =>
    simp only [List.map_nil, List.nil_append, List.nil_append]
    cases hres : stream_loop gz tail <;> simp [Except.map, hres]
  | @cons b c bs cs hbc _ ih =>
    simp only [List.map_cons, List.cons_append, stream_loop, hbc,
      List.append_eq, Bool.false_eq_true, if_false]
    rw [ih]
    cases hres : stream_loop gz tail <;> simp [Except.map]

end Volcano

namespace CacheService

theorem lookup_updateAssoc_self {β : Type} (m : List (String × β))
    (k : String) (v : β) : lookupKey (updateAssoc m k v) k = some v := by
  induction m with
  | nil => simp [updateAssoc, lookupKey]
  | cons kv rest ih =>
    obtain ⟨k', v'⟩ := kv
    by_cases hk : k' = k
    · simp [updateAssoc, hk, lookupKey]
    · simp only [updateAssoc, if_neg hk, lookupKey]
      exact ih

theorem lookup_cleanup {α : Type} (m : List (String × MemItem α)) (now : ℚ)
    (k : String) (it : MemItem α) (h : lookupKey m k = some it)
    (hlt : now < it.expires_at) :
    lookupKey (cleanup_expired m now) k = some it := by
  induction m with
  | nil => simp [lookupKey] at h
  | cons kv rest ih =>
    obtain ⟨k', it'⟩ := kv
    simp only [lookupKey] at h
    by_cases hk : k' = k
    · rw [if_pos hk] at h
      obtain rfl : it' = it := by simpa using h
      simp only [cleanup_expired, List.filter_cons, decide_eq_true hlt]
      simp [lookupKey, hk]
    · rw [if_neg hk] at h
      have htail := ih h
      simp only [cleanup_expired, List.filter_cons] at htail ⊢
      by_cases hkeep : now < it'.expires_at
      · simp only [decide_eq_true hkeep, lookupKey]
        rw [if_neg hk]
        exact htail
      · simpa [decide_eq_false hkeep] using htail

theorem lookup_eq_none_of_not_mem_keys {β : Type} (m : List (String × β))
    (k : String) (h : k ∉ m.map Prod.fst) : lookupKey m k = none := by
  induction m with
  | nil => simp [lookupKey]
  | cons kv rest ih =>
    obtain ⟨k', v'⟩ := kv
    simp only [List.map_cons, List.mem_cons, not_or] at h
    simp only [lookupKey]
    rw [if_neg (fun hk => h.1 hk.symm)]
    exact ih h.2

theorem lookup_eraseKey_self {β : Type} (m : List (String × β))
    (k : String) (hnd : (m.map Prod.fst).Nodup) :
    lookupKey (eraseKey m k) k = none := by
  induction m with
  | nil => simp [eraseKey, lookupKey]
  | cons kv rest ih =>
    obtain ⟨k', v'⟩ := kv
    simp only [List.map_cons, List.nodup_cons] at hnd
    by_cases hk : k' = k
    · subst hk
      simp only [eraseKey, if_pos rfl]
      exact lookup_eq_none_of_not_mem_keys rest k' hnd.1
    · simp only [eraseKey, if_neg hk, lookupKey]
      exact ih hnd.2

theorem mem_keys_updateAssoc {β : Type} (m : List (String × β))
    (k : String) (v : β) (k' : String)
    (h : k' ∈ (updateAssoc m k v).map Prod.fst) :
    k' ∈ m.map Prod.fst ∨ k' = k := by
  induction m with
  | nil => simpa [updateAssoc] using h
  | cons kv rest ih =>
    obtain ⟨k₀, v₀⟩ := kv
    by_cases hk : k₀ = k
    · subst hk
      rw [show updateAssoc ((k₀, v₀) :: rest) k₀ v = (k₀, v) :: rest by
        simp [updateAssoc]] at h
      simp only [List.map_cons, List.mem_cons] at h
      rcases h with h1 | h1
      · exact Or.inr h1
      · exact Or.inl (List.mem_cons_of_mem _ h1)
    · simp only [updateAssoc, if_neg hk, List.map_cons, List.mem_cons] at h ⊢
      rcases h with h | h
      · exact Or.inl (Or.inl h)
      · rcases ih h with h' | h'
        · exact Or.inl (Or.inr h')
        · exact Or.inr h'

theorem nodup_keys_updateAssoc {β : Type} (m : List (String × β))
    (k : String) (v : β) (hnd : (m.map Prod.fst).Nodup) :
    ((updateAssoc m k v).map Prod.fst).Nodup := by
  induction m with
  | nil => simp [updateAssoc]
  | cons kv rest ih =>
    obtain ⟨k₀, v₀⟩ := kv
    simp only [List.map_cons, List.nodup_cons] at hnd
    by_cases hk : k₀ = k
    · subst hk
      rw [show updateAssoc ((k₀, v₀) :: rest) k₀ v = (k₀, v) :: rest by
        simp [updateAssoc]]
      simp only [List.map_cons, List.nodup_cons]
      exact hnd
    · simp only [updateAssoc, if_neg hk, List.map_cons, List.nodup_cons]
      refine ⟨fun hmem => ?_, ih hnd.2⟩
      rcases mem_keys_updateAssoc rest k v k₀ hmem with h' | h'
      · exact hnd.1 h'
      · exact hk h'

theorem nodup_keys_cleanup {α : Type} (m : List (String × MemItem α))
    (now : ℚ) (hnd : (m.map Prod.fst).Nodup) :
    ((cleanup_expired m now).map Prod.fst).Nodup :=
  hnd.sublist ((m.filter_sublist).map Prod.fst)

instance : IsTotal (String × String) pairLe where
  total a b := by
    rcases lt_trichotomy a.1 b.1 with h | h | h
    · exact Or.inl (Or.inl h)
    · rcases le_total a.2 b.2 with h2 | h2
      · exact Or.inl (Or.inr ⟨h, h2⟩)
      · exact Or.inr (Or.inr ⟨h.symm, h2⟩)
    · exact Or.inr (Or.inl h)

instance : IsTrans (String × String) pairLe where
  trans a b c hab hbc := by
    rcases hab with h1 | ⟨h1, h1'⟩ <;> rcases hbc with h2 | ⟨h2, h2'⟩
    · exact Or.inl (h1.trans h2)
    · exact Or.inl (lt_of_lt_of_eq h1 h2)
    · exact Or.inl (lt_of_eq_of_lt h1 h2)
    · exact Or.inr ⟨h1.trans h2, h1'.trans h2'⟩

instance : IsAntisymm (String × String) pairLe where
  antisymm a b hab hba := by
    rcases hab with h1 | ⟨h1, h1'⟩ <;> rcases hba with h2 | ⟨h2, h2'⟩
    · exact absurd h2 (lt_asymm h1)
    · exact absurd h1 (by rw [h2]; exact lt_irrefl _)
    · exact absurd h2 (by rw [h1]; exact lt_irrefl _)
    · exact Prod.ext h1 (le_antisymm h1' h2')

end CacheService

/-! ### Claims -/

open Volcano in
/-- C1, counterexample.  A stream consisting of a single receive timeout
— no chunk with a negative sequence number was ever observed — makes
`synthesize_to_file` return a plain success result (status "success",
zero bytes written to the output file): no `SynthesisIncomplete`-style
error is reported, refuting the claim that every such stream is reported
as incomplete.  The timeout handler at volcano_client.py lines 285-287
logs and `break`s. -/
theorem c1_timeout_silent_success :
    synthesize_to_file (fun x => x) "rid" "out.mp3" 0 1 [.timeout] =
      ([("out.mp3", [])],
       .ok { request_id := "rid", file_path := "out.mp3", file_size := 0,
             synthesis_time := 1, created_at := 0, status := "success" }) := by
  simp [synthesize_to_file, stream_loop]

open Volcano in
/-- C1, amended.  A receive timeout or a connection closure before a
terminal chunk does not raise: it silently ends the stream, and the
chunks received so far are returned as a normal result —
`synthesize_to_file` writes the partial audio and reports success.  For
any prefix of non-terminal audio frames followed by a timeout (or a
closure), the loop yields exactly the prefix's chunks and the file call
succeeds with the concatenated partial audio. -/
theorem c1_timeout_or_close_returns_partial_audio
    (gz : List Nat → List Nat) (bs cs : List (List Nat))
    (h : List.Forall₂
      (fun b c => parse_response gz b = .ok (false, some c)) bs cs)
    (tail : List RecvEvent) (rid path : String) (start stop : ℚ) :
    stream_loop gz (bs.map .msg ++ .timeout :: tail) = .ok cs ∧
    stream_loop gz (bs.map .msg ++ .closed :: tail) = .ok cs ∧
    synthesize_to_file gz rid path start stop
        (bs.map .msg ++ .timeout :: tail) =
      ([(path, cs.flatten)],
       .ok { request_id := rid, file_path := path,
             file_size := cs.flatten.length, synthesis_time := stop - start,
             created_at := start, status := "success" }) := by
  have ht := stream_loop_append_nonterminal gz h (.timeout :: tail)
  have hc := stream_loop_append_nonterminal gz h (.closed :: tail)
  simp only [stream_loop, Except.map] at ht hc
  refine ⟨by simpa using ht, by simpa using hc, ?_⟩
  simp [synthesize_to_file, ht]

open Volcano in
/-- C1, witness for the amended theorem: one non-terminal audio frame
(sequence number 1, three audio bytes) followed by a timeout yields
exactly that chunk as a successful result. -/
theorem c1_timeout_or_close_returns_partial_audio_witness :
    stream_loop (fun x => x)
        ([[0x11, 0xb1, 0x10, 0x00, 0, 0, 0, 1, 0, 0, 0, 3, 7, 8, 9]].map .msg
          ++ .timeout :: []) = .ok [[7, 8, 9]] ∧
    stream_loop (fun x => x)
        ([[0x11, 0xb1, 0x10, 0x00, 0, 0, 0, 1, 0, 0, 0, 3, 7, 8, 9]].map .msg
          ++ .closed :: []) = .ok [[7, 8, 9]] ∧
    synthesize_to_file (fun x => x) "rid" "out.mp3" 0 1
        ([[0x11, 0xb1, 0x10, 0x00, 0, 0, 0, 1, 0, 0, 0, 3, 7, 8, 9]].map .msg
          ++ .timeout :: []) =
      ([("out.mp3", [7, 8, 9])],
       .ok { request_id := "rid", file_path := "out.mp3", file_size := 3,
             synthesis_time := 1 - 0, created_at := 0,
             status := "success" }) :=
  c1_timeout_or_close_returns_partial_audio (fun x => x)
    [[0x11, 0xb1, 0x10, 0x00, 0, 0, 0, 1, 0, 0, 0, 3, 7, 8, 9]] [[7, 8, 9]]
    (List.forall₂_cons.mpr ⟨rfl, List.Forall₂.nil⟩) [] "rid" "out.mp3" 0 1

open Volcano in
/-- C2, counterexample.  Decoding the 3-byte string `[1, 2, 3]` does not
fail: `_parse_response` returns `(False, None)` — exactly a normal
non-terminal, no-audio result (volcano_client.py lines 299-300) — so no
`MalformedFrame`-style error is raised for inputs shorter than 4 bytes. -/
theorem c2_short_frame_not_error :
    parse_response (fun x => x) [1, 2, 3] = .ok (false, none) := rfl

open Volcano in
/-- C2, amended.  For every byte string of length strictly less than 4,
frame decoding returns the normal non-terminal, no-audio result
`(False, None)` rather than failing with `MalformedFrame`. -/
theorem c2_short_frame_returns_nonterminal (gz : List Nat → List Nat)
    (bs : List Nat) (h : bs.length < 4) :
    parse_response gz bs = .ok (false, none) := by
  simp [parse_response, h]

open Volcano in
/-- C2, witness: the amended theorem applied to the 2-byte string
`[0xff, 0xff]`. -/
theorem c2_short_frame_returns_nonterminal_witness :
    parse_response (fun x => x) [0xff, 0xff] = .ok (false, none) :=
  c2_short_frame_returns_nonterminal (fun x => x) [0xff, 0xff] (by decide)

open Volcano in
/-- C5, confirmed.  The emotion parameter is present in the outgoing wire
request iff a non-empty emotion tag was supplied and `supports_emotion`
(membership in the loaded emotion-voice list, volcano_client.py lines
378-380) holds for the voice: with a tag and an unsupported voice the
field is omitted and the request is still built (no error is possible —
`build_request_json` is total); with no tag the field is always absent
(volcano_client.py lines 147-150). -/
theorem c5_emotion_gating (emotion_voices : List String)
    (app_id access_token cluster uid text voice_type : String)
    (speed volume pitch : ℚ) (encoding rid : String)
    (e : String) (he : e ≠ "") :
    ((build_request_json emotion_voices app_id access_token cluster uid
        text voice_type speed volume pitch encoding (some e) rid).emotion
        = some e
      ↔ supports_emotion emotion_voices voice_type = true) ∧
    (build_request_json emotion_voices app_id access_token cluster uid
        text voice_type speed volume pitch encoding none rid).emotion
      = none := by
  constructor
  · simp only [build_request_json, emotionTruthy]
    cases hs : supports_emotion emotion_voices voice_type <;>
      simp [hs, he]
  · simp [build_request_json, emotionTruthy]

open Volcano in
/-- C5, witness: under the built-in default emotion-voice list, voice
`zh_female_shuangkuaisisi_emo_v2_mars_bigtts` with emotion "happy"
carries the emotion field, and voice `generic_voice_01` with the same
emotion silently omits it. -/
theorem c5_emotion_gating_witness :
    ((build_request_json default_emotion_voices "app" "tok" "clu" "uid"
        "你好" "zh_female_shuangkuaisisi_emo_v2_mars_bigtts" 1 1 1 "mp3"
        (some "happy") "rid").emotion = some "happy"
      ↔ supports_emotion default_emotion_voices
          "zh_female_shuangkuaisisi_emo_v2_mars_bigtts" = true) ∧
    (build_request_json default_emotion_voices "app" "tok" "clu" "uid"
        "你好" "zh_female_shuangkuaisisi_emo_v2_mars_bigtts" 1 1 1 "mp3"
        none "rid").emotion = none ∧
    (build_request_json default_emotion_voices "app" "tok" "clu" "uid"
        "你好" "generic_voice_01" 1 1 1 "mp3"
        (some "happy") "rid").emotion = none := by
  refine ⟨(c5_emotion_gating default_emotion_voices "app" "tok" "clu" "uid"
    "你好" "zh_female_shuangkuaisisi_emo_v2_mars_bigtts" 1 1 1 "mp3" "rid"
    "happy" (by decide)).1,
    (c5_emotion_gating default_emotion_voices "app" "tok" "clu" "uid"
    "你好" "zh_female_shuangkuaisisi_emo_v2_mars_bigtts" 1 1 1 "mp3" "rid"
    "happy" (by decide)).2, ?_⟩
  decide

open Volcano in
/-- C7, confirmed.  An error frame (message type `0xf`) aborts the
in-flight synthesis: (a) parsing such a frame yields the provider error
carrying the 4-byte big-endian code and the message bytes, the message
gzip-decompressed exactly when the header's compression nibble is 1 (the
two header variants below differ only in that nibble); (b) whenever an
error frame follows any prefix of non-terminal audio frames, the whole
`synthesize_to_file` call fails with the (wrapped) provider error and
performs no file write. -/
theorem c7_error_frame_aborts (gz : List Nat → List Nat)
    (code4 len4 raw : List Nat) (hc : code4.length = 4)
    (hl : len4.length = 4) (bs cs : List (List Nat))
    (h : List.Forall₂
      (fun b c => parse_response gz b = .ok (false, some c)) bs cs)
    (b : List Nat) (code : Nat) (msg : List Nat)
    (hb : parse_response gz b = .error (.providerError code msg))
    (tail : List RecvEvent) (rid path : String) (start stop : ℚ) :
    parse_response gz ([0x11, 0xf0, 0x11, 0x00] ++ code4 ++ len4 ++ raw) =
      .error (.providerError (natFromBytesBE code4) (gz raw)) ∧
    parse_response gz ([0x11, 0xf0, 0x10, 0x00] ++ code4 ++ len4 ++ raw) =
      .error (.providerError (natFromBytesBE code4) raw) ∧
    synthesize_to_file gz rid path start stop
        (bs.map .msg ++ .msg b :: tail) =
      ([], .error (.synthesisFailed (.providerError code msg))) := by
  have hparse : ∀ c2 : Nat,
      ([(0x11 : Nat), 0xf0, c2, 0x00] ++ code4 ++ len4 ++ raw).drop 4 =
        code4 ++ len4 ++ raw := by intro c2; rfl
  have htake : (code4 ++ (len4 ++ raw)).take 4 = code4 := by
    rw [← hc]; exact List.take_left code4 (len4 ++ raw)
  have hdrop : (code4 ++ (len4 ++ raw)).drop 8 = raw := by
    have hlen : (code4 ++ len4).length = 8 := by
      simp [List.length_append, hc, hl]
    rw [← List.append_assoc, ← hlen, List.drop_left]
  refine ⟨?_, ?_, ?_⟩
  · simp only [parse_response]
    rw [if_neg (by simp [List.length_append, hc, hl])]
    simp only [List.getD, hparse]
    norm_num
    simp [htake, hdrop]
  · simp only [parse_response]
    rw [if_neg (by simp [List.length_append, hc, hl])]
    simp only [List.getD, hparse]
    norm_num
    simp [htake, hdrop]
  · have hloop : stream_loop gz (bs.map .msg ++ .msg b :: tail) =
        .error (.providerError code msg) := by
      rw [stream_loop_append_nonterminal gz h]
      simp [stream_loop, hb, Except.map]
    simp [synthesize_to_file, hloop]

open Volcano in
/-- C7, witness: the concrete error frame with code 45000 and message
"invalid text" (UTF-8 bytes), uncompressed, after one non-terminal audio
frame: the parse surfaces the provider error with code 45000 and that
message, and the synthesis call fails with it and writes nothing. -/
theorem c7_error_frame_aborts_witness :
    parse_response (fun x => x)
        ([0x11, 0xf0, 0x11, 0x00] ++ [0, 0, 175, 200] ++ [0, 0, 0, 12] ++
          [105, 110, 118, 97, 108, 105, 100, 32, 116, 101, 120, 116]) =
      .error (.providerError
        (natFromBytesBE [0, 0, 175, 200])
        [105, 110, 118, 97, 108, 105, 100, 32, 116, 101, 120, 116]) ∧
    parse_response (fun x => x)
        ([0x11, 0xf0, 0x10, 0x00] ++ [0, 0, 175, 200] ++ [0, 0, 0, 12] ++
          [105, 110, 118, 97, 108, 105, 100, 32, 116, 101, 120, 116]) =
      .error (.providerError
        (natFromBytesBE [0, 0, 175, 200])
        [105, 110, 118, 97, 108, 105, 100, 32, 116, 101, 120, 116]) ∧
    synthesize_to_file (fun x => x) "rid" "out.mp3" 0 1
        ([[0x11, 0xb1, 0x10, 0x00, 0, 0, 0, 1, 0, 0, 0, 3, 7, 8, 9]].map .msg
          ++ .msg ([0x11, 0xf0, 0x10, 0x00] ++ [0, 0, 175, 200] ++
            [0, 0, 0, 12] ++
            [105, 110, 118, 97, 108, 105, 100, 32, 116, 101, 120, 116])
          :: []) =
      ([], .error (.synthesisFailed (.providerError 45000
        [105, 110, 118, 97, 108, 105, 100, 32, 116, 101, 120, 116]))) :=
  c7_error_frame_aborts (fun x => x) [0, 0, 175, 200] [0, 0, 0, 12]
    [105, 110, 118, 97, 108, 105, 100, 32, 116, 101, 120, 116]
    rfl rfl
    [[0x11, 0xb1, 0x10, 0x00, 0, 0, 0, 1, 0, 0, 0, 3, 7, 8, 9]] [[7, 8, 9]]
    (List.forall₂_cons.mpr ⟨rfl, List.Forall₂.nil⟩)
    ([0x11, 0xf0, 0x10, 0x00] ++ [0, 0, 175, 200] ++ [0, 0, 0, 12] ++
      [105, 110, 118, 97, 108, 105, 100, 32, 116, 101, 120, 116])
    45000 [105, 110, 118, 97, 108, 105, 100, 32, 116, 101, 120, 116]
    (by rfl) [] "rid" "out.mp3" 0 1

/-- C3, confirmed.  The cache-key fingerprint is a pure function of the
supplied keyword arguments and is order-independent: permuting the
keyword-argument list leaves `generate_cache_key` unchanged (Python's
`sorted(kwargs.items())` canonicalises the order before hashing).  At the
call site, the key computed by `synthesize_text` depends on exactly
(text, voice id, speed, volume, pitch, format, emotion-or-"neutral"):
two requests equal in those seven parameters get the identical key, for
any values of the remaining request fields — and request id, caller and
timestamp are not inputs of the computation at all. -/
theorem c3_cache_key_order_independent (md5hex : String → String)
    (pfx : String) (l1 l2 : List (String × String)) (hperm : l1.Perm l2)
    (r1 r2 : TTSService.TTSRequest)
    (ht : r1.text = r2.text) (hv : r1.voice_id = r2.voice_id)
    (hs : r1.speed = r2.speed) (hvol : r1.volume = r2.volume)
    (hp : r1.pitch = r2.pitch) (hf : r1.format = r2.format)
    (he : r1.emotion = r2.emotion) :
    CacheService.generate_cache_key md5hex pfx l1 =
      CacheService.generate_cache_key md5hex pfx l2 ∧
    TTSService.ttsCacheKey md5hex r1 = TTSService.ttsCacheKey md5hex r2 := by
  constructor
  · have hsorted : List.insertionSort CacheService.pairLe l1 =
        List.insertionSort CacheService.pairLe l2 :=
      List.eq_of_perm_of_sorted
        ((List.perm_insertionSort CacheService.pairLe l1).trans
          (hperm.trans (List.perm_insertionSort CacheService.pairLe l2).symm))
        (List.sorted_insertionSort CacheService.pairLe l1)
        (List.sorted_insertionSort CacheService.pairLe l2)
    simp [CacheService.generate_cache_key, hsorted]
  · simp [TTSService.ttsCacheKey, ht, hv, hs, hvol, hp, hf, he]

/-- C3, witness: a two-element keyword list and its transposition hash to
the same key, and two requests that agree on the seven fingerprint
parameters but differ in sample rate get the identical cache key. -/
theorem c3_cache_key_order_independent_witness :
    CacheService.generate_cache_key (fun s => s) "tts"
        [("a", "1"), ("b", "2")] =
      CacheService.generate_cache_key (fun s => s) "tts"
        [("b", "2"), ("a", "1")] ∧
    TTSService.ttsCacheKey (fun s => s)
        ⟨"hello", "v1", 1, 1, 1, "mp3", none, 24000, 160⟩ =
      TTSService.ttsCacheKey (fun s => s)
        ⟨"hello", "v1", 1, 1, 1, "mp3", none, 8000, 320⟩ :=
  c3_cache_key_order_independent (fun s => s) "tts"
    [("a", "1"), ("b", "2")] [("b", "2"), ("a", "1")]
    (List.Perm.swap ("b", "2") ("a", "1") [])
    ⟨"hello", "v1", 1, 1, 1, "mp3", none, 24000, 160⟩
    ⟨"hello", "v1", 1, 1, 1, "mp3", none, 8000, 320⟩
    rfl rfl rfl rfl rfl rfl rfl

open CacheService in
/-- C6, confirmed.  On the in-memory backend, after
`set(key, value, ttl=e)` at time `now`: a `get` strictly before the
expiry time `now + e` returns the stored value; a `get` after the expiry
time returns absent, and as a side effect of that read the entry is
deleted from the memory cache (the resulting memory is exactly the old
one with the key erased, and the key no longer resolves). -/
theorem c6_ttl_get_semantics {α : Type} (defaultExpire : Int)
    (st : CacheState α) (hred : st.redis = none)
    (hnd : (st.memory.map Prod.fst).Nodup)
    (key : String) (v : α) (e : Int) (he : 0 < e) (now t1 t2 : ℚ)
    (h1 : t1 < now + (e : ℚ)) (h2 : now + (e : ℚ) < t2) :
    (get (set defaultExpire st key v (some e) now).2 key t1).1 = some v ∧
    (get (set defaultExpire st key v (some e) now).2 key t2).1 = none ∧
    (get (set defaultExpire st key v (some e) now).2 key t2).2.memory =
      eraseKey (set defaultExpire st key v (some e) now).2.memory key ∧
    lookupKey
      (get (set defaultExpire st key v (some e) now).2 key t2).2.memory
      key = none := by
  obtain ⟨redis, memory, stats⟩ := st
  simp only at hred hnd
  subst hred
  have hne : e ≠ 0 := by omega
  have hpos : (0 : ℚ) < (e : ℚ) := by exact_mod_cast he
  have hst : (CacheService.set defaultExpire ⟨none, memory, stats⟩ key v
      (some e) now).2
      = ⟨none,
          cleanup_expired (updateAssoc memory key
            ⟨v, now + (((if e = 0 then defaultExpire else e) : ℤ) : ℚ)⟩) now,
          { stats with sets := stats.sets + 1 }⟩ := rfl
  rw [if_neg hne] at hst
  have hlk : lookupKey
      (cleanup_expired (updateAssoc memory key ⟨v, now + (e : ℚ)⟩) now) key
      = some ⟨v, now + (e : ℚ)⟩ :=
    lookup_cleanup _ now key _ (lookup_updateAssoc_self memory key _)
      (lt_add_of_pos_right now hpos)
  have hnd' : ((cleanup_expired (updateAssoc memory key
      ⟨v, now + (e : ℚ)⟩) now).map Prod.fst).Nodup :=
    nodup_keys_cleanup _ _ (nodup_keys_updateAssoc _ _ _ hnd)
  rw [hst]
  refine ⟨?_, ?_, ?_, ?_⟩
  · simp only [CacheService.get, hlk]
    simp [h1]
  · simp only [CacheService.get, hlk]
    simp [not_lt.mpr (le_of_lt h2)]
  · simp only [CacheService.get, hlk]
    simp [not_lt.mpr (le_of_lt h2)]
  · simp only [CacheService.get, hlk]
    simp only [not_lt.mpr (le_of_lt h2), if_false]
    simp [lookup_eraseKey_self _ key hnd']

open CacheService in
/-- C6, witness: fresh empty memory cache, `set "k" 7` with ttl 1 at time
0; reading at time 1/2 returns 7, reading at time 11/10 returns absent
and leaves the key unresolvable. -/
theorem c6_ttl_get_semantics_witness :
    (get (set 3600 (⟨none, [], ⟨0, 0, 0, 0⟩⟩ : CacheState Nat) "k" 7
        (some 1) 0).2 "k" (1 / 2)).1 = some 7 ∧
    (get (set 3600 (⟨none, [], ⟨0, 0, 0, 0⟩⟩ : CacheState Nat) "k" 7
        (some 1) 0).2 "k" (11 / 10)).1 = none ∧
    (get (set 3600 (⟨none, [], ⟨0, 0, 0, 0⟩⟩ : CacheState Nat) "k" 7
        (some 1) 0).2 "k" (11 / 10)).2.memory =
      eraseKey (set 3600 (⟨none, [], ⟨0, 0, 0, 0⟩⟩ : CacheState Nat) "k" 7
        (some 1) 0).2.memory "k" ∧
    lookupKey
      (get (set 3600 (⟨none, [], ⟨0, 0, 0, 0⟩⟩ : CacheState Nat) "k" 7
        (some 1) 0).2 "k" (11 / 10)).2.memory
      "k" = none :=
  c6_ttl_get_semantics 3600 ⟨none, [], ⟨0, 0, 0, 0⟩⟩ rfl (by simp)
    "k" 7 1 (by norm_num) 0 (1 / 2) (11 / 10) (by norm_num) (by norm_num)

open CacheService in
/-- C10, confirmed.  On the in-memory backend, every `set` returns `True`
and ends with a full-table sweep
(`_cleanup_expired_memory_cache`, cache_service.py lines 198-210): in the
state it leaves behind, every entry of the memory cache — not only the
written key — has an expiry strictly in the future of the write time. -/
theorem c10_set_sweeps {α : Type} (defaultExpire : Int)
    (st : CacheState α) (hred : st.redis = none) (key : String) (v : α)
    (expire : Option Int) (now : ℚ) :
    (set defaultExpire st key v expire now).1 = true ∧
    ∀ kv ∈ (set defaultExpire st key v expire now).2.memory,
      now < kv.2.expires_at := by
  obtain ⟨redis, memory, stats⟩ := st
  simp only at hred
  subst hred
  have hmem : (CacheService.set defaultExpire ⟨none, memory, stats⟩ key v
      expire now).2.memory
      = cleanup_expired (updateAssoc memory key
          ⟨v, now + (((match expire with
                       | none => defaultExpire
                       | some e => if e = 0 then defaultExpire else e) :
              ℤ) : ℚ)⟩) now := rfl
  refine ⟨rfl, fun kv hkv => ?_⟩
  rw [hmem] at hkv
  simp only [cleanup_expired] at hkv
  exact of_decide_eq_true (List.mem_filter.mp hkv).2

open CacheService in
/-- C10, witness: a memory cache already holding an expired entry
("old", expired at time −1) receives `set "k" 7`; the set returns `True`
and the resulting table contains no entry with a past expiry. -/
theorem c10_set_sweeps_witness :
    (set 3600 (⟨none, [("old", ⟨5, -1⟩)], ⟨0, 0, 0, 0⟩⟩ : CacheState Nat)
        "k" 7 none 0).1 = true ∧
    ∀ kv ∈ (set 3600
        (⟨none, [("old", ⟨5, -1⟩)], ⟨0, 0, 0, 0⟩⟩ : CacheState Nat)
        "k" 7 none 0).2.memory,
      (0 : ℚ) < kv.2.expires_at :=
  c10_set_sweeps 3600 ⟨none, [("old", ⟨5, -1⟩)], ⟨0, 0, 0, 0⟩⟩ rfl
    "k" 7 none 0

open Volcano CacheService TTSService in
/-- C4, confirmed.  When the cache holds an entry for the request's key,
`synthesize_text` returns immediately: the result is a fixed expression
in which none of `gz`, `events`, `dur`, `uuid2`, `start`, `stop`, `tSet`
or `cacheExpire` occurs — the Protocol Client and the duration probe are
never invoked and the cache is not written — and the returned response
carries the freshly drawn request id `u`, a storage path rebuilt from
`u`, while its voice, format, size and duration are exactly those of the
cached entry (tts_service.py lines 56-68). -/
theorem c4_cache_hit_skips_client (gz : List Nat → List Nat)
    (events : List RecvEvent) (dur : String → Except String ℚ)
    (u uuid2 : String) (start stop tGet tResp tSet : ℚ) (audioPath : String)
    (md5hex : String → String) (cacheExpire : Int)
    (st : CacheState CacheData) (req : TTSRequest) (user_id : Option String)
    (entry : CacheData)
    (hhit : (CacheService.get st (ttsCacheKey md5hex req) tGet).1
      = some entry) :
    synthesize_text gz events dur u uuid2 start stop tGet tResp tSet
        audioPath md5hex cacheExpire st req user_id =
      ([],
       .ok { request_id := u
             text := entry.text
             voice_id := entry.voice_id
             file_path := audioPath ++ "/" ++ ("tts_" ++ u ++ "." ++ entry.format)
             file_url := entry.file_url
             file_size := entry.file_size
             duration := entry.duration
             format := entry.format
             synthesis_time := entry.synthesis_time
             created_at := tResp
             status := entry.status },
       (CacheService.get st (ttsCacheKey md5hex req) tGet).2) := by
  simp [synthesize_text, hitResponse, hhit]

open Volcano CacheService TTSService in
/-- C4, witness: a memory cache pre-populated under the request's key
(md5 oracle constantly "H", so the key is "tts:H") produces the hit
response with fresh id "new-u" and the cached entry's metadata. -/
theorem c4_cache_hit_skips_client_witness :
    synthesize_text (fun x => x) [] (fun _ => .error "no probe") "new-u"
        "u2" 0 0 0 5 0 "/data/audio" (fun _ => "H") 3600
        ⟨none,
         [("tts:H", ⟨⟨"old-id", "hello", "v1", "/audio/tts_old-id.mp3",
            123, some 2, "mp3", 1, 0, "success"⟩, 10⟩)],
         ⟨0, 0, 0, 0⟩⟩
        ⟨"hello", "v1", 1, 1, 1, "mp3", none, 24000, 160⟩ none =
      ([],
       .ok { request_id := "new-u"
             text := "hello"
             voice_id := "v1"
             file_path := "/data/audio" ++ "/" ++ ("tts_" ++ "new-u" ++ "." ++ "mp3")
             file_url := "/audio/tts_old-id.mp3"
             file_size := 123
             duration := some 2
             format := "mp3"
             synthesis_time := 1
             created_at := 5
             status := "success" },
       (CacheService.get
         ⟨none,
          [("tts:H", ⟨⟨"old-id", "hello", "v1", "/audio/tts_old-id.mp3",
             123, some 2, "mp3", 1, 0, "success"⟩, 10⟩)],
          ⟨0, 0, 0, 0⟩⟩
         (ttsCacheKey (fun _ => "H")
           ⟨"hello", "v1", 1, 1, 1, "mp3", none, 24000, 160⟩) 0).2) :=
  c4_cache_hit_skips_client (fun x => x) [] (fun _ => .error "no probe")
    "new-u" "u2" 0 0 0 5 0 "/data/audio" (fun _ => "H") 3600
    ⟨none,
     [("tts:H", ⟨⟨"old-id", "hello", "v1", "/audio/tts_old-id.mp3",
        123, some 2, "mp3", 1, 0, "success"⟩, 10⟩)],
     ⟨0, 0, 0, 0⟩⟩
    ⟨"hello", "v1", 1, 1, 1, "mp3", none, 24000, 160⟩ none
    ⟨"old-id", "hello", "v1", "/audio/tts_old-id.mp3",
      123, some 2, "mp3", 1, 0, "success"⟩
    (by rfl)

open Volcano CacheService TTSService in
/-- C9, confirmed.  On a cache hit, the call performs no file write, yet
the response's `file_path` is rebuilt under the audio directory from the
freshly drawn request id (a path this call never wrote), while its
`file_url` is taken unchanged from the cached entry and therefore still
names the originally stored audio file (tts_service.py lines 58-68).
Moreover, what gets cached is `response.dict()` with `file_path` popped
and `file_url` kept (lines 116-118): `toCacheData` does not depend on the
response's `file_path` and preserves its `file_url`. -/
theorem c9_hit_path_rebuilt_url_cached (gz : List Nat → List Nat)
    (events : List RecvEvent) (dur : String → Except String ℚ)
    (u uuid2 : String) (start stop tGet tResp tSet : ℚ) (audioPath : String)
    (md5hex : String → String) (cacheExpire : Int)
    (st : CacheState CacheData) (req : TTSRequest) (user_id : Option String)
    (entry : CacheData)
    (hhit : (CacheService.get st (ttsCacheKey md5hex req) tGet).1
      = some entry) :
    (synthesize_text gz events dur u uuid2 start stop tGet tResp tSet
        audioPath md5hex cacheExpire st req user_id).1 = [] ∧
    (synthesize_text gz events dur u uuid2 start stop tGet tResp tSet
        audioPath md5hex cacheExpire st req user_id).2.1 =
      .ok (hitResponse entry u tResp audioPath) ∧
    (hitResponse entry u tResp audioPath).file_path =
      audioPath ++ "/" ++ ("tts_" ++ u ++ "." ++ entry.format) ∧
    (hitResponse entry u tResp audioPath).file_url = entry.file_url ∧
    (∀ (r : TTSResponse) (p : String),
      toCacheData { r with file_path := p } = toCacheData r) ∧
    (∀ r : TTSResponse, (toCacheData r).file_url = r.file_url) := by
  refine ⟨?_, ?_, rfl, rfl, fun r p => rfl, fun r => rfl⟩ <;>
    simp [synthesize_text, hhit]

open Volcano CacheService TTSService in
/-- C9, witness: the concrete hit state of the C4 witness — no write is
performed, the response is the hit response, the rebuilt path uses the
fresh id "new-u", and the url is the cached "/audio/tts_old-id.mp3". -/
theorem c9_hit_path_rebuilt_url_cached_witness :
    (synthesize_text (fun x => x) [] (fun _ => .error "no probe") "new-u"
        "u2" 0 0 0 5 0 "/data/audio" (fun _ => "H") 3600
        ⟨none,
         [("tts:H", ⟨⟨"old-id", "hello", "v1", "/audio/tts_old-id.mp3",
            123, some 2, "mp3", 1, 0, "success"⟩, 10⟩)],
         ⟨0, 0, 0, 0⟩⟩
        ⟨"hello", "v1", 1, 1, 1, "mp3", none, 24000, 160⟩ none).1 = [] ∧
    (synthesize_text (fun x => x) [] (fun _ => .error "no probe") "new-u"
        "u2" 0 0 0 5 0 "/data/audio" (fun _ => "H") 3600
        ⟨none,
         [("tts:H", ⟨⟨"old-id", "hello", "v1", "/audio/tts_old-id.mp3",
            123, some 2, "mp3", 1, 0, "success"⟩, 10⟩)],
         ⟨0, 0, 0, 0⟩⟩
        ⟨"hello", "v1", 1, 1, 1, "mp3", none, 24000, 160⟩ none).2.1 =
      .ok (hitResponse
        ⟨"old-id", "hello", "v1", "/audio/tts_old-id.mp3",
          123, some 2, "mp3", 1, 0, "success"⟩ "new-u" 5 "/data/audio") ∧
    (hitResponse
        ⟨"old-id", "hello", "v1", "/audio/tts_old-id.mp3",
          123, some 2, "mp3", 1, 0, "success"⟩ "new-u" 5
        "/data/audio").file_path =
      "/data/audio" ++ "/" ++ ("tts_" ++ "new-u" ++ "." ++ "mp3") ∧
    (hitResponse
        ⟨"old-id", "hello", "v1", "/audio/tts_old-id.mp3",
          123, some 2, "mp3", 1, 0, "success"⟩ "new-u" 5
        "/data/audio").file_url = "/audio/tts_old-id.mp3" ∧
    (∀ (r : TTSResponse) (p : String),
      toCacheData { r with file_path := p } = toCacheData r) ∧
    (∀ r : TTSResponse, (toCacheData r).file_url = r.file_url) :=
  c9_hit_path_rebuilt_url_cached (fun x => x) [] (fun _ => .error "no probe")
    "new-u" "u2" 0 0 0 5 0 "/data/audio" (fun _ => "H") 3600
    ⟨none,
     [("tts:H", ⟨⟨"old-id", "hello", "v1", "/audio/tts_old-id.mp3",
        123, some 2, "mp3", 1, 0, "success"⟩, 10⟩)],
     ⟨0, 0, 0, 0⟩⟩
    ⟨"hello", "v1", 1, 1, 1, "mp3", none, 24000, 160⟩ none
    ⟨"old-id", "hello", "v1", "/audio/tts_old-id.mp3",
      123, some 2, "mp3", 1, 0, "success"⟩
    (by rfl)

open Volcano CacheService TTSService in
/-- C8, confirmed.  A failure inside the cache subsystem never fails the
synthesis call: (a) when the backing client's read raises, `get` catches
it and returns absent with the memory untouched (cache_service.py lines
76-79); (b) when the backing client's write raises, `set` catches it and
reports `False` instead of propagating (lines 112-114, both the
with-expiry and the plain write paths); (c) the orchestrator then proceeds
exactly as on a cache miss: with a read-failing client it performs the
same writes and returns the same response as it does on an empty cache
(tts_service.py lines 56-68 — the set's boolean is discarded). -/
theorem c8_cache_failure_is_soft {α : Type} (rc : RedisClient α)
    (key : String) (now : ℚ) (mem : List (String × MemItem α))
    (stats : CacheStats) (defaultExpire : Int) (v : α) (e : Int)
    (he : e ≠ 0) (msg1 msg2 msg3 : String)
    (hget : rc.rget key = .error msg1)
    (hsetex : rc.rsetex key e v = .error msg2)
    (hset : rc.rset key v = .error msg3)
    (rc2 : RedisClient CacheData) (emsg : String)
    (gz : List Nat → List Nat) (events : List RecvEvent)
    (dur : String → Except String ℚ) (u uuid2 : String)
    (start stop tGet tResp tSet : ℚ) (audioPath : String)
    (md5hex : String → String) (cacheExpire : Int)
    (mem2 : List (String × MemItem CacheData)) (stats2 : CacheStats)
    (req : TTSRequest) (user_id : Option String)
    (hget2 : rc2.rget (ttsCacheKey md5hex req) = .error emsg) :
    (CacheService.get ⟨some rc, mem, stats⟩ key now).1 = none ∧
    (CacheService.get ⟨some rc, mem, stats⟩ key now).2.memory = mem ∧
    (CacheService.set defaultExpire ⟨some rc, mem, stats⟩ key v (some e)
      now).1 = false ∧
    (CacheService.set defaultExpire ⟨some rc, mem, stats⟩ key v none
      now).1 = false ∧
    (synthesize_text gz events dur u uuid2 start stop tGet tResp tSet
        audioPath md5hex cacheExpire ⟨some rc2, mem2, stats2⟩ req
        user_id).1 =
      (synthesize_text gz events dur u uuid2 start stop tGet tResp tSet
        audioPath md5hex cacheExpire ⟨none, [], ⟨0, 0, 0, 0⟩⟩ req
        user_id).1 ∧
    (synthesize_text gz events dur u uuid2 start stop tGet tResp tSet
        audioPath md5hex cacheExpire ⟨some rc2, mem2, stats2⟩ req
        user_id).2.1 =
      (synthesize_text gz events dur u uuid2 start stop tGet tResp tSet
        audioPath md5hex cacheExpire ⟨none, [], ⟨0, 0, 0, 0⟩⟩ req
        user_id).2.1 := by
  have h1 : (CacheService.get ⟨some rc2, mem2, stats2⟩
      (ttsCacheKey md5hex req) tGet).1 = none := by
    simp [CacheService.get, hget2]
  have h2 : (CacheService.get (⟨none, [], ⟨0, 0, 0, 0⟩⟩ :
      CacheState CacheData) (ttsCacheKey md5hex req) tGet).1 = none := by
    simp [CacheService.get, lookupKey]
  rcases hv : (Volcano.synthesize_to_file gz uuid2
      (audioPath ++ "/" ++ ("tts_" ++ u ++ "." ++ req.format)) start stop
      events).2 with e' | r <;>
    refine ⟨by simp [CacheService.get, hget],
      by simp [CacheService.get, hget],
      by simp [CacheService.set, he, hsetex],
      by simp [CacheService.set, hset], ?_, ?_⟩ <;>
    simp [synthesize_text, h1, h2, hv]

open Volcano CacheService TTSService in
/-- C8, witness: a backing client that raises on every call — `get`
returns absent leaving memory untouched, both forms of `set` return
`False`, and the orchestrator's writes and response equal those on an
empty cache. -/
theorem c8_cache_failure_is_soft_witness :
    (CacheService.get ⟨some ⟨fun _ => .error "boom", fun _ _ _ => .error
        "boom", fun _ _ => .error "boom"⟩, [], ⟨0, 0, 0, 0⟩⟩ "k"
        (0 : ℚ)).1 = (none : Option Nat) ∧
    (CacheService.get (⟨some ⟨fun _ => .error "boom", fun _ _ _ => .error
        "boom", fun _ _ => .error "boom"⟩, [], ⟨0, 0, 0, 0⟩⟩ :
        CacheState Nat) "k" 0).2.memory = [] ∧
    (CacheService.set 3600 (⟨some ⟨fun _ => .error "boom",
        fun _ _ _ => .error "boom", fun _ _ => .error "boom"⟩, [],
        ⟨0, 0, 0, 0⟩⟩ : CacheState Nat) "k" 7 (some 1) 0).1 = false ∧
    (CacheService.set 3600 (⟨some ⟨fun _ => .error "boom",
        fun _ _ _ => .error "boom", fun _ _ => .error "boom"⟩, [],
        ⟨0, 0, 0, 0⟩⟩ : CacheState Nat) "k" 7 none 0).1 = false ∧
    (synthesize_text (fun x => x) [.timeout] (fun _ => .error "no probe")
        "u" "u2" 0 0 0 0 0 "/a" (fun _ => "H") 3600
        ⟨some ⟨fun _ => .error "boom", fun _ _ _ => .error "boom",
          fun _ _ => .error "boom"⟩, [], ⟨0, 0, 0, 0⟩⟩
        ⟨"hello", "v1", 1, 1, 1, "mp3", none, 24000, 160⟩ none).1 =
      (synthesize_text (fun x => x) [.timeout] (fun _ => .error "no probe")
        "u" "u2" 0 0 0 0 0 "/a" (fun _ => "H") 3600
        ⟨none, [], ⟨0, 0, 0, 0⟩⟩
        ⟨"hello", "v1", 1, 1, 1, "mp3", none, 24000, 160⟩ none).1 ∧
    (synthesize_text (fun x => x) [.timeout] (fun _ => .error "no probe")
        "u" "u2" 0 0 0 0 0 "/a" (fun _ => "H") 3600
        ⟨some ⟨fun _ => .error "boom", fun _ _ _ => .error "boom",
          fun _ _ => .error "boom"⟩, [], ⟨0, 0, 0, 0⟩⟩
        ⟨"hello", "v1", 1, 1, 1, "mp3", none, 24000, 160⟩ none).2.1 =
      (synthesize_text (fun x => x) [.timeout] (fun _ => .error "no probe")
        "u" "u2" 0 0 0 0 0 "/a" (fun _ => "H") 3600
        ⟨none, [], ⟨0, 0, 0, 0⟩⟩
        ⟨"hello", "v1", 1, 1, 1, "mp3", none, 24000, 160⟩ none).2.1 :=
  c8_cache_failure_is_soft
    ⟨fun _ => .error "boom", fun _ _ _ => .error "boom",
      fun _ _ => .error "boom"⟩ "k" 0 [] ⟨0, 0, 0, 0⟩ 3600 7 1
    (by decide) "boom" "boom" "boom" rfl rfl rfl
    ⟨fun _ => .error "boom", fun _ _ _ => .error "boom",
      fun _ _ => .error "boom"⟩ "boom"
    (fun x => x) [.timeout] (fun _ => .error "no probe") "u" "u2"
    0 0 0 0 0 "/a" (fun _ => "H") 3600 [] ⟨0, 0, 0, 0⟩
    ⟨"hello", "v1", 1, 1, 1, "mp3", none, 24000, 160⟩ none rfl

end Gee4TTS

